import Mathlib

/-!
Verification development for the TextBrief repository.

The embedding models the OAuth credential lifecycle of
`src/tools/gmail/gmail_authenticator.py` (`GmailAuthenticator.authenticate_user`,
`GmailAuthenticator.get_service_for_user`), the single-token variant
`src/newsletter_ai/tools/gmail/gmail_authenticator.py` (`GmailAuthenticator.get_service`),
the idempotency ledger `src/newsletter_ai/bd/db.py` (`mark_email_processed`), and
the message-listing wrapper `src/tools/gmail/gmail_client.py`
(`GmailClient.list_messages`).

External collaborators (the google-auth `Credentials` object, the provider's
token-refresh endpoint, the interactive consent flow, `googleapiclient.discovery.build`,
and SQLite's INSERT OR IGNORE) are modelled as explicit data and oracles, following
their documented behavior, since the repository consumes them as black boxes.
Python exceptions are modelled as `Except` values; the raised exception on the
error path of `authenticate_user` is always `AuthenticationError` wrapping a
cause, so the error payload records that cause.
-/

namespace TextBrief

/-- Credential data as held by the google-auth `Credentials` object and as
serialized into a token file by `creds.to_json()`: an optional access token, an
optional refresh token, the scope list, and an optional expiry timestamp
(seconds on an abstract clock). -/
structure Credentials where
  token : Option String
  refreshToken : Option String
  scopes : List String
  expiry : Option Nat
  deriving Repr, DecidableEq

/-- Expiry test of google-auth `Credentials.expired`: a credential with no
expiry never counts as expired; otherwise it is expired once the clock reaches
the expiry (clock skew folded into the timestamp). -/
def Credentials.expired (c : Credentials) (now : Nat) : Bool :=
  match c.expiry with
  | none => false
  | some e => now ≥ e

/-- Validity test of google-auth `Credentials.valid`: an access token is
present and the credential is not expired. -/
def Credentials.valid (c : Credentials) (now : Nat) : Bool :=
  c.token.isSome && !(c.expired now)

/-- Truthiness of `creds.refresh_token` in Python: present and non-empty. -/
def Credentials.hasRefreshToken (c : Credentials) : Bool :=
  match c.refreshToken with
  | some s => s ≠ ""
  | none => false

/-- Content of a file at a token path: either a parseable credential record or
unparseable bytes. -/
inductive FileContent where
  | cred (c : Credentials)
  | invalid (raw : String)
  deriving Repr, DecidableEq

/-- Lookup in the on-disk store, newest write first. -/
def lookupFile : List (String × FileContent) → String → Option FileContent
  | [], _ => none
  | (p, v) :: rest, q => if q = p then some v else lookupFile rest q

/-- Whole-file overwrite at a path. -/
def writeFile (fs : List (String × FileContent)) (p : String) (v : FileContent) :
    List (String × FileContent) :=
  (p, v) :: fs

/-- Cause carried by a raised exception in the modelled code paths. -/
inductive PyErr where
  /-- Token file exists but its content is unparseable
  (`ValueError` / `JSONDecodeError` out of `Credentials.from_authorized_user_file`);
  the spec's `StorageError`. -/
  | storageError
  /-- Provider rejected the refresh-token exchange
  (`google.auth.exceptions.RefreshError`, e.g. invalid_grant). -/
  | refreshError
  /-- Interactive consent flow failed or was abandoned. -/
  | consentError
  /-- `googleapiclient.discovery.build` raised. -/
  | buildError
  /-- `AuthenticationError` raised directly by `get_service` when no credential
  is stored on the instance. -/
  | noCredentials
  deriving Repr, DecidableEq

/-- Model of `Credentials.from_authorized_user_file(path, scopes)`: parses the
stored record and builds a `Credentials` whose scope list is the REQUESTED scope
list — google-auth passes the `scopes` argument through and does not consult the
stored granted scopes. Unparseable content raises. -/
def from_authorized_user_file (content : FileContent) (scopes : List String) :
    Except PyErr Credentials :=
  match content with
  | .cred c => .ok { c with scopes := scopes }
  | .invalid _ => .error .storageError

/-- Provider reply to a successful refresh-token exchange: new access token, its
lifetime in seconds, and optionally a rotated refresh token. -/
structure RefreshResponse where
  accessToken : String
  expiresIn : Nat
  newRefreshToken : Option String
  deriving Repr, DecidableEq

/-- Environment of one `authenticate_user` call: the clock, the provider's reply
to a refresh-token exchange (`none` models a rejection such as invalid_grant),
and the outcome of the interactive consent flow (`none` models a failed or
abandoned flow). -/
structure Env where
  now : Nat
  refreshResponse : Option RefreshResponse
  consentResponse : Option Credentials
  deriving Repr, DecidableEq

/-- Model of google-auth `Credentials.refresh(Request())`: on success the access
token is replaced, the expiry becomes now + expires_in, and the refresh token is
kept unless the response carries a new one; a rejection raises `RefreshError`. -/
def Credentials.refresh (c : Credentials) (env : Env) : Except PyErr Credentials :=
  match env.refreshResponse with
  | none => .error .refreshError
  | some r =>
      .ok { c with
        token := some r.accessToken
        expiry := some (env.now + r.expiresIn)
        refreshToken :=
          match r.newRefreshToken with
          | some t => some t
          | none => c.refreshToken }

/-- Observable side effects of one `authenticate_user` call: how many times the
refresh exchange ran, how many times the interactive consent flow ran, and the
file writes performed, in order. -/
structure Trace where
  refreshCalls : Nat
  consentCalls : Nat
  writes : List (String × FileContent)
  deriving Repr, DecidableEq

/-- Result of one `authenticate_user` call: the returned credentials or the
cause wrapped by the raised `AuthenticationError`, the file system afterwards,
and the side-effect trace. -/
structure AuthResult where
  result : Except PyErr Credentials
  fs : List (String × FileContent)
  trace : Trace
  deriving Repr

/-- Loading step of `authenticate_user`: `if os.path.exists(token_storage_path)`
then `Credentials.from_authorized_user_file(token_storage_path, scopes)`; a
missing file leaves `creds = None` with no exception. -/
def load_token_file (fs : List (String × FileContent)) (scopes : List String)
    (path : String) : Except PyErr (Option Credentials) :=
  match lookupFile fs path with
  | none => .ok none
  | some content =>
      match from_authorized_user_file content scopes with
      | .error e => .error e
      | .ok c => .ok (some c)

/-- Consent branch of `authenticate_user`: `InstalledAppFlow.from_client_secrets_file`
followed by `flow.run_local_server(port=0)`, then the write of the new record to
the token path. Any failure in the flow is wrapped as `AuthenticationError`. -/
def consentFlow (env : Env) (fs : List (String × FileContent)) (path : String) :
    AuthResult :=
  match env.consentResponse with
  | none =>
      { result := .error .consentError, fs := fs
        trace := { refreshCalls := 0, consentCalls := 1, writes := [] } }
  | some c =>
      { result := .ok c, fs := writeFile fs path (.cred c)
        trace := { refreshCalls := 0, consentCalls := 1, writes := [(path, .cred c)] } }

/-- Model of `GmailAuthenticator.authenticate_user(user_email, scopes, token_storage_path)`
from `src/tools/gmail/gmail_authenticator.py`: load the token file if present
(wrapping a parse failure); if the loaded credentials are valid return them with
no further effect; if loaded, expired and carrying a truthy refresh token,
refresh and persist; otherwise run the interactive consent flow and persist.
Every raised error is `AuthenticationError` wrapping the recorded cause. The
method reads no per-user instance state: `self.creds` is never consulted. -/
def authenticate_user (env : Env) (fs : List (String × FileContent))
    (user_email : String) (scopes : List String) (token_storage_path : String) :
    AuthResult :=
  match load_token_file fs scopes token_storage_path with
  | .error e =>
      { result := .error e, fs := fs
        trace := { refreshCalls := 0, consentCalls := 0, writes := [] } }
  | .ok none => consentFlow env fs token_storage_path
  | .ok (some c) =>
      if c.valid env.now then
        { result := .ok c, fs := fs
          trace := { refreshCalls := 0, consentCalls := 0, writes := [] } }
      else if c.expired env.now && c.hasRefreshToken then
        match c.refresh env with
        | .error e =>
            { result := .error e, fs := fs
              trace := { refreshCalls := 1, consentCalls := 0, writes := [] } }
        | .ok c' =>
            { result := .ok c', fs := writeFile fs token_storage_path (.cred c')
              trace := { refreshCalls := 1, consentCalls := 0
                         writes := [(token_storage_path, .cred c')] } }
      else consentFlow env fs token_storage_path

/-- Service handle produced by `googleapiclient.discovery.build`: the API name
and version it was built for and the credentials it was handed (possibly none —
`build` accepts `credentials=None` and falls back to ambient defaults). -/
structure Resource where
  api_name : String
  api_version : String
  credentials : Option Credentials
  deriving Repr, DecidableEq

/-- Model of `googleapiclient.discovery.build(api_name, api_version, credentials=creds)`:
depending on the environment (`raises`) it either raises — missing discovery
document, no usable ambient credentials when `creds` is `None` — or returns a
`Resource` bound to whatever credentials were passed, including none. -/
def build (raises : Bool) (api_name api_version : String)
    (creds : Option Credentials) : Except PyErr Resource :=
  if raises then .error .buildError
  else .ok { api_name := api_name, api_version := api_version, credentials := creds }

/-- Result of a service-construction call: the returned `Resource` or the cause
behind the raised `AuthenticationError`, plus whether `build` was attempted. -/
structure ServiceResult where
  result : Except PyErr Resource
  buildAttempts : Nat
  deriving Repr

/-- Model of `GmailAuthenticator.get_service(api_name, api_version)` from
`src/newsletter_ai/tools/gmail/gmail_authenticator.py`: `if not self.creds:`
raise `AuthenticationError` before touching `build`; otherwise attempt `build`
and wrap any failure as `AuthenticationError`. The `not self.creds` test only
detects an absent (`None`) credential — a present `Credentials` object is always
truthy in Python, valid or not. -/
def get_service (buildRaises : Bool) (selfCreds : Option Credentials)
    (api_name api_version : String) : ServiceResult :=
  match selfCreds with
  | none => { result := .error .noCredentials, buildAttempts := 0 }
  | some c =>
      match build buildRaises api_name api_version (some c) with
      | .error e => { result := .error e, buildAttempts := 1 }
      | .ok r => { result := .ok r, buildAttempts := 1 }

/-- Model of `GmailAuthenticator.get_service_for_user(creds, api_name, api_version)`
from `src/tools/gmail/gmail_authenticator.py`: no credential check of any kind —
it always attempts `build` with the supplied credentials and wraps any raised
failure as `AuthenticationError`. -/
def get_service_for_user (buildRaises : Bool) (creds : Option Credentials)
    (api_name api_version : String) : ServiceResult :=
  match build buildRaises api_name api_version creds with
  | .error e => { result := .error e, buildAttempts := 1 }
  | .ok r => { result := .ok r, buildAttempts := 1 }

/-- Row of the `processed_emails` table of `src/newsletter_ai/bd/db.py`:
`(email_id TEXT PRIMARY KEY, sender, subject, date, processed_at)`. -/
structure EmailRow where
  email_id : String
  sender : String
  subject : String
  date : String
  processed_at : String
  deriving Repr, DecidableEq

/-- Model of `mark_email_processed(email_id, sender, subject, date)` from
`src/newsletter_ai/bd/db.py`: `INSERT OR IGNORE INTO processed_emails` keyed by
the `email_id` primary key — when a row with that id already exists SQLite
ignores the statement entirely, otherwise the new row is appended with
`processed_at = datetime('now')` (the clock passed as `now`). -/
def mark_email_processed (table : List EmailRow)
    (email_id sender subject date now : String) : List EmailRow :=
  if table.any (fun r => r.email_id == email_id) then table
  else table ++ [{ email_id := email_id, sender := sender, subject := subject
                   date := date, processed_at := now }]

/-- Abstraction of one message-metadata dictionary returned by the provider's
list-messages call. -/
structure MessageMeta where
  id : String
  threadId : String
  deriving Repr, DecidableEq

/-- Provider response to `users().messages().list(...)`: a JSON object whose
`messages` field may be absent (empty inbox). -/
structure ListResponse where
  messages : Option (List MessageMeta)
  deriving Repr, DecidableEq

/-- Exception class raised by `GmailClient` wrappers. -/
inductive ClientErr where
  | gmailClientError
  deriving Repr, DecidableEq

/-- Model of `GmailClient.list_messages(user_id, max_results)` from
`src/tools/gmail/gmail_client.py`: call the underlying
`MessagesClient.list_messages` (its outcome is the `callResult` argument — any
exception it raises, `HttpError` or otherwise, is wrapped as `GmailClientError`),
then return `results.get("messages", [])`. -/
def list_messages (callResult : Except Unit ListResponse) :
    Except ClientErr (List MessageMeta) :=
  match callResult with
  | .error _ => .error .gmailClientError
  | .ok results =>
      .ok (match results.messages with
           | some ms => ms
           | none => [])

/-! ## Helper lemmas -/

theorem lookupFile_writeFile_eq (fs : List (String × FileContent)) (p : String)
    (v : FileContent) : lookupFile (writeFile fs p v) p = some v := by
  simp [writeFile, lookupFile]

theorem lookupFile_writeFile_ne (fs : List (String × FileContent)) (p q : String)
    (v : FileContent) (h : q ≠ p) :
    lookupFile (writeFile fs p v) q = lookupFile fs q := by
  simp [writeFile, lookupFile, h]

/-- Frame property of `authenticate_user`: the only location it ever writes is
the token path it was passed, so lookups at any other path are unchanged. -/
theorem authenticate_user_frame (env : Env) (fs : List (String × FileContent))
    (u : String) (s : List String) (path q : String) (h : q ≠ path) :
    lookupFile (authenticate_user env fs u s path).fs q = lookupFile fs q := by
  unfold authenticate_user consentFlow
  repeat' split
  all_goals simp [writeFile, lookupFile, h]

/-! ## Claim theorems -/

/-- C1: when the stored record at the token path loads to valid (non-expired,
token-bearing) credentials, `authenticate_user` returns those credentials with
no refresh call, no consent call and no storage write, and a second call in the
resulting state returns the identical result — identical underlying token data
and zero additional writes. -/
theorem C1_valid_record_idempotent (env : Env) (fs : List (String × FileContent))
    (u : String) (c : Credentials) (scopes : List String) (path : String)
    (hload : lookupFile fs path = some (.cred c))
    (hvalid : Credentials.valid { c with scopes := scopes } env.now = true) :
    (authenticate_user env fs u scopes path).result = .ok { c with scopes := scopes } ∧
    (authenticate_user env fs u scopes path).trace =
      { refreshCalls := 0, consentCalls := 0, writes := [] } ∧
    (authenticate_user env fs u scopes path).fs = fs ∧
    authenticate_user env (authenticate_user env fs u scopes path).fs u scopes path =
      authenticate_user env fs u scopes path := by
  have h1 : authenticate_user env fs u scopes path =
      { result := .ok { c with scopes := scopes }, fs := fs
        trace := { refreshCalls := 0, consentCalls := 0, writes := [] } } := by
    unfold authenticate_user load_token_file
    rw [hload]
    simp [from_authorized_user_file, hvalid]
  rw [h1]
  exact ⟨rfl, rfl, rfl, h1⟩

/-- C1 witness: a concrete valid stored record, authenticated twice. -/
theorem C1_witness :
    lookupFile [("tokens/a.json", FileContent.cred ⟨some "tok", some "rt", ["read"], some 100⟩)]
      "tokens/a.json" = some (.cred ⟨some "tok", some "rt", ["read"], some 100⟩) ∧
    Credentials.valid ⟨some "tok", some "rt", ["read"], some 100⟩ 10 = true ∧
    (authenticate_user ⟨10, none, none⟩
      [("tokens/a.json", FileContent.cred ⟨some "tok", some "rt", ["read"], some 100⟩)]
      "alice" ["read"] "tokens/a.json").result =
      .ok ⟨some "tok", some "rt", ["read"], some 100⟩ :=
  ⟨by decide, by decide,
    (C1_valid_record_idempotent ⟨10, none, none⟩
      [("tokens/a.json", FileContent.cred ⟨some "tok", some "rt", ["read"], some 100⟩)]
      "alice" ⟨some "tok", some "rt", ["read"], some 100⟩ ["read"] "tokens/a.json"
      (by decide) (by decide)).1⟩

/-- C2: when the stored record at the token path is expired (its expiry has
passed) and carries a truthy refresh token, and the provider accepts the
exchange with a positive lifetime and no rotated refresh token,
`authenticate_user` runs the refresh exactly once (and no consent), persists the
refreshed record — same refresh token, new access token — at the token path as
its only write, returns it, and the new expiry is strictly later than the old. -/
theorem C2_expired_record_refreshed (env : Env) (fs : List (String × FileContent))
    (u : String) (c : Credentials) (r : RefreshResponse) (scopes : List String)
    (path : String) (e : Nat)
    (hload : lookupFile fs path = some (.cred c))
    (hexp : c.expiry = some e)
    (hpast : e ≤ env.now)
    (hrt : Credentials.hasRefreshToken c = true)
    (hresp : env.refreshResponse = some r)
    (hnorot : r.newRefreshToken = none)
    (hpos : 0 < r.expiresIn) :
    (authenticate_user env fs u scopes path).result =
      .ok { c with scopes := scopes, token := some r.accessToken,
                   expiry := some (env.now + r.expiresIn) } ∧
    (authenticate_user env fs u scopes path).trace.refreshCalls = 1 ∧
    (authenticate_user env fs u scopes path).trace.consentCalls = 0 ∧
    (authenticate_user env fs u scopes path).trace.writes =
      [(path, .cred { c with scopes := scopes, token := some r.accessToken,
                             expiry := some (env.now + r.expiresIn) })] ∧
    lookupFile (authenticate_user env fs u scopes path).fs path =
      some (.cred { c with scopes := scopes, token := some r.accessToken,
                           expiry := some (env.now + r.expiresIn) }) ∧
    e < env.now + r.expiresIn := by
  have hexpd : Credentials.expired { c with scopes := scopes } env.now = true := by
    simp [Credentials.expired, hexp]
    omega
  have hval : Credentials.valid { c with scopes := scopes } env.now = false := by
    simp [Credentials.valid, hexpd]
  have hrt' : Credentials.hasRefreshToken { c with scopes := scopes } = true := hrt
  have h1 : authenticate_user env fs u scopes path = { result := .ok { c with scopes := scopes, token := some r.accessToken, expiry := some (env.now + r.expiresIn) }, fs := writeFile fs path (.cred { c with scopes := scopes, token := some r.accessToken, expiry := some (env.now + r.expiresIn) }), trace := { refreshCalls := 1, consentCalls := 0, writes := [(path, .cred { c with scopes := scopes, token := some r.accessToken, expiry := some (env.now + r.expiresIn) })] } } := by
    unfold authenticate_user load_token_file
    rw [hload]
    simp [from_authorized_user_file, hval, hexpd, hrt', Credentials.refresh, hresp, hnorot]
  rw [h1]
  refine ⟨rfl, rfl, rfl, rfl, lookupFile_writeFile_eq _ _ _, ?_⟩
  omega

/-- C2 witness: a concrete expired record with a refresh token, refreshed by the
provider with a one-hour lifetime. -/
theorem C2_witness :
    lookupFile [("tokens/a.json", FileContent.cred ⟨some "old", some "rt", ["read"], some 5⟩)]
      "tokens/a.json" = some (.cred ⟨some "old", some "rt", ["read"], some 5⟩) ∧
    (authenticate_user ⟨10, some ⟨"new", 3600, none⟩, none⟩
      [("tokens/a.json", FileContent.cred ⟨some "old", some "rt", ["read"], some 5⟩)]
      "alice" ["read"] "tokens/a.json").result =
      .ok ⟨some "new", some "rt", ["read"], some 3610⟩ ∧
    (5 : Nat) < 3610 :=
  ⟨by decide,
    (C2_expired_record_refreshed ⟨10, some ⟨"new", 3600, none⟩, none⟩
      [("tokens/a.json", FileContent.cred ⟨some "old", some "rt", ["read"], some 5⟩)]
      "alice" ⟨some "old", some "rt", ["read"], some 5⟩ ⟨"new", 3600, none⟩
      ["read"] "tokens/a.json" 5 (by decide) rfl (by decide) (by decide) rfl rfl
      (by decide)).1,
    by decide⟩

/-- C3: with no stored record at the token path and a successful consent flow,
`authenticate_user` runs the interactive consent exactly once (and no refresh),
persists the resulting record at exactly the configured token path as its only
write, and returns that record. -/
theorem C3_no_record_consent (env : Env) (fs : List (String × FileContent))
    (u : String) (scopes : List String) (path : String) (c : Credentials)
    (hload : lookupFile fs path = none)
    (hcons : env.consentResponse = some c) :
    (authenticate_user env fs u scopes path).result = .ok c ∧
    (authenticate_user env fs u scopes path).trace.consentCalls = 1 ∧
    (authenticate_user env fs u scopes path).trace.refreshCalls = 0 ∧
    (authenticate_user env fs u scopes path).trace.writes = [(path, .cred c)] ∧
    lookupFile (authenticate_user env fs u scopes path).fs path = some (.cred c) := by
  have h1 : authenticate_user env fs u scopes path = { result := .ok c, fs := writeFile fs path (.cred c), trace := { refreshCalls := 0, consentCalls := 1, writes := [(path, .cred c)] } } := by
    unfold authenticate_user load_token_file
    rw [hload]
    simp [consentFlow, hcons]
  rw [h1]
  exact ⟨rfl, rfl, rfl, rfl, lookupFile_writeFile_eq _ _ _⟩

/-- C3 witness: a concrete fresh (user, scopes) pair with no stored record. -/
theorem C3_witness :
    lookupFile [] "tokens/alice.json" = none ∧
    (authenticate_user ⟨0, none, some ⟨some "tok", some "rt", ["read"], some 900⟩⟩
      [] "alice" ["read"] "tokens/alice.json").result =
      .ok ⟨some "tok", some "rt", ["read"], some 900⟩ ∧
    lookupFile (authenticate_user ⟨0, none, some ⟨some "tok", some "rt", ["read"], some 900⟩⟩
      [] "alice" ["read"] "tokens/alice.json").fs "tokens/alice.json" =
      some (.cred ⟨some "tok", some "rt", ["read"], some 900⟩) :=
  ⟨rfl,
    (C3_no_record_consent ⟨0, none, some ⟨some "tok", some "rt", ["read"], some 900⟩⟩
      [] "alice" ["read"] "tokens/alice.json"
      ⟨some "tok", some "rt", ["read"], some 900⟩ rfl rfl).1,
    (C3_no_record_consent ⟨0, none, some ⟨some "tok", some "rt", ["read"], some 900⟩⟩
      [] "alice" ["read"] "tokens/alice.json"
      ⟨some "tok", some "rt", ["read"], some 900⟩ rfl rfl).2.2.2.2⟩

/-- C4: when the stored record is expired with a truthy refresh token and the
provider rejects the exchange (invalid_grant), `authenticate_user` raises
`AuthenticationError` wrapping the `RefreshError` cause instead of crashing with
an unhandled error, performs no write, and leaves the file system — in
particular the still-expired record at the token path — unchanged. -/
theorem C4_refresh_rejected_record_intact (env : Env)
    (fs : List (String × FileContent)) (u : String) (c : Credentials)
    (scopes : List String) (path : String) (e : Nat)
    (hload : lookupFile fs path = some (.cred c))
    (hexp : c.expiry = some e)
    (hpast : e ≤ env.now)
    (hrt : Credentials.hasRefreshToken c = true)
    (hresp : env.refreshResponse = none) :
    (authenticate_user env fs u scopes path).result = .error .refreshError ∧
    (authenticate_user env fs u scopes path).trace.writes = [] ∧
    (authenticate_user env fs u scopes path).fs = fs ∧
    lookupFile (authenticate_user env fs u scopes path).fs path = some (.cred c) := by
  have hexpd : Credentials.expired { c with scopes := scopes } env.now = true := by
    simp [Credentials.expired, hexp]
    omega
  have hval : Credentials.valid { c with scopes := scopes } env.now = false := by
    simp [Credentials.valid, hexpd]
  have hrt' : Credentials.hasRefreshToken { c with scopes := scopes } = true := hrt
  have h1 : authenticate_user env fs u scopes path = { result := .error .refreshError, fs := fs, trace := { refreshCalls := 1, consentCalls := 0, writes := [] } } := by
    unfold authenticate_user load_token_file
    rw [hload]
    simp [from_authorized_user_file, hval, hexpd, hrt', Credentials.refresh, hresp]
  rw [h1]
  exact ⟨rfl, rfl, rfl, hload⟩

/-- C4 witness: a concrete expired record whose refresh the provider rejects. -/
theorem C4_witness :
    lookupFile [("tokens/a.json", FileContent.cred ⟨some "old", some "rt", ["read"], some 5⟩)]
      "tokens/a.json" = some (.cred ⟨some "old", some "rt", ["read"], some 5⟩) ∧
    (authenticate_user ⟨10, none, none⟩
      [("tokens/a.json", FileContent.cred ⟨some "old", some "rt", ["read"], some 5⟩)]
      "alice" ["read"] "tokens/a.json").result = .error .refreshError ∧
    (authenticate_user ⟨10, none, none⟩
      [("tokens/a.json", FileContent.cred ⟨some "old", some "rt", ["read"], some 5⟩)]
      "alice" ["read"] "tokens/a.json").fs =
      [("tokens/a.json", FileContent.cred ⟨some "old", some "rt", ["read"], some 5⟩)] :=
  ⟨by decide,
    (C4_refresh_rejected_record_intact ⟨10, none, none⟩
      [("tokens/a.json", FileContent.cred ⟨some "old", some "rt", ["read"], some 5⟩)]
      "alice" ⟨some "old", some "rt", ["read"], some 5⟩ ["read"] "tokens/a.json" 5
      (by decide) rfl (by decide) (by decide) rfl).1,
    (C4_refresh_rejected_record_intact ⟨10, none, none⟩
      [("tokens/a.json", FileContent.cred ⟨some "old", some "rt", ["read"], some 5⟩)]
      "alice" ⟨some "old", some "rt", ["read"], some 5⟩ ["read"] "tokens/a.json" 5
      (by decide) rfl (by decide) (by decide) rfl).2.2.1⟩

/-- C5: isolation across users. Any `authenticate_user` call writes only the
token path it was passed — lookups at every other path are untouched — and in
particular, authenticating user A at path A and then user B at a distinct path B
on the same instance leaves A's stored record exactly as A's own call left it.
The model of `authenticate_user` takes no mutable per-user instance state, which
mirrors the source: the method never reads or writes `self.creds`. -/
theorem C5_distinct_paths_isolated (envA envB : Env)
    (fs : List (String × FileContent)) (uA uB : String)
    (sA sB : List String) (pathA pathB : String)
    (hne : pathA ≠ pathB) :
    (∀ (env : Env) (fs0 : List (String × FileContent)) (u : String)
       (s : List String) (p q : String), q ≠ p →
       lookupFile (authenticate_user env fs0 u s p).fs q = lookupFile fs0 q) ∧
    lookupFile (authenticate_user envB (authenticate_user envA fs uA sA pathA).fs
        uB sB pathB).fs pathA =
      lookupFile (authenticate_user envA fs uA sA pathA).fs pathA := by
  refine ⟨fun env fs0 u s p q hq => authenticate_user_frame env fs0 u s p q hq, ?_⟩
  exact authenticate_user_frame envB _ uB sB pathB pathA hne

/-- C5 witness: two users with distinct concrete token paths, both driven
through consent; B's call leaves A's stored record in place. -/
theorem C5_witness :
    "tokens/a.json" ≠ "tokens/b.json" ∧
    lookupFile (authenticate_user ⟨0, none, some ⟨some "tb", none, ["read"], some 900⟩⟩
        (authenticate_user ⟨0, none, some ⟨some "ta", none, ["read"], some 900⟩⟩
          [] "alice" ["read"] "tokens/a.json").fs
        "bob" ["read"] "tokens/b.json").fs "tokens/a.json" =
      lookupFile (authenticate_user ⟨0, none, some ⟨some "ta", none, ["read"], some 900⟩⟩
        [] "alice" ["read"] "tokens/a.json").fs "tokens/a.json" :=
  ⟨by decide,
    (C5_distinct_paths_isolated ⟨0, none, some ⟨some "ta", none, ["read"], some 900⟩⟩
      ⟨0, none, some ⟨some "tb", none, ["read"], some 900⟩⟩ [] "alice" "bob"
      ["read"] ["read"] "tokens/a.json" "tokens/b.json" (by decide)).2⟩

/-- C6: the loading step returns the absent marker — raising nothing — when the
token path does not exist, and the flow then proceeds to the consent path
(exactly one consent invocation); when the path exists but its content is
unparseable, the call fails with the storage cause wrapped in
`AuthenticationError` and consent is never reached. -/
theorem C6_load_absent_vs_unparseable (env env2 : Env)
    (fs fs2 : List (String × FileContent)) (u u2 : String)
    (s s2 : List String) (path path2 raw : String)
    (habs : lookupFile fs path = none)
    (hbad : lookupFile fs2 path2 = some (.invalid raw)) :
    load_token_file fs s path = .ok none ∧
    (authenticate_user env fs u s path).trace.consentCalls = 1 ∧
    (authenticate_user env2 fs2 u2 s2 path2).result = .error .storageError ∧
    (authenticate_user env2 fs2 u2 s2 path2).trace.consentCalls = 0 := by
  refine ⟨?_, ?_, ?_, ?_⟩
  · unfold load_token_file
    rw [habs]
  · unfold authenticate_user load_token_file
    rw [habs]
    cases h : env.consentResponse <;> simp [consentFlow, h]
  · unfold authenticate_user load_token_file
    rw [hbad]
    simp [from_authorized_user_file]
  · unfold authenticate_user load_token_file
    rw [hbad]
    simp [from_authorized_user_file]

/-- C6 witness: a missing file proceeding to consent, and a concrete
unparseable file failing with the storage cause. -/
theorem C6_witness :
    lookupFile [] "tokens/a.json" = none ∧
    lookupFile [("tokens/b.json", FileContent.invalid "not json")] "tokens/b.json" =
      some (.invalid "not json") ∧
    (authenticate_user ⟨0, none, none⟩ [] "alice" ["read"] "tokens/a.json").trace.consentCalls = 1 ∧
    (authenticate_user ⟨0, none, none⟩ [("tokens/b.json", FileContent.invalid "not json")]
      "bob" ["read"] "tokens/b.json").result = .error .storageError :=
  ⟨rfl, by decide,
    (C6_load_absent_vs_unparseable ⟨0, none, none⟩ ⟨0, none, none⟩ []
      [("tokens/b.json", FileContent.invalid "not json")] "alice" "bob"
      ["read"] ["read"] "tokens/a.json" "tokens/b.json" "not json"
      rfl (by decide)).2.1,
    (C6_load_absent_vs_unparseable ⟨0, none, none⟩ ⟨0, none, none⟩ []
      [("tokens/b.json", FileContent.invalid "not json")] "alice" "bob"
      ["read"] ["read"] "tokens/a.json" "tokens/b.json" "not json"
      rfl (by decide)).2.2.1⟩

/-- C7: the code performs no scope-superset check. Concrete run: the stored
record's granted scopes are only `read`, the call requests `read` and `send`,
the record is not expired — and `authenticate_user` returns it as the session
with zero consent (and zero refresh) invocations, because
`Credentials.from_authorized_user_file` replaces the scope list with the
requested one and `creds.valid` tests only token presence and expiry. The claim
requires the record to be treated as absent and a consent flow triggered. -/
theorem C7_scope_superset_check_missing :
    ¬ (["read", "send"] ⊆ (Credentials.mk (some "tok") (some "rt") ["read"] (some 1000)).scopes) ∧
    (authenticate_user ⟨10, none, none⟩
      [("tokens/a.json", FileContent.cred ⟨some "tok", some "rt", ["read"], some 1000⟩)]
      "alice" ["read", "send"] "tokens/a.json").result =
      .ok ⟨some "tok", some "rt", ["read", "send"], some 1000⟩ ∧
    (authenticate_user ⟨10, none, none⟩
      [("tokens/a.json", FileContent.cred ⟨some "tok", some "rt", ["read"], some 1000⟩)]
      "alice" ["read", "send"] "tokens/a.json").trace.consentCalls = 0 ∧
    (authenticate_user ⟨10, none, none⟩
      [("tokens/a.json", FileContent.cred ⟨some "tok", some "rt", ["read"], some 1000⟩)]
      "alice" ["read", "send"] "tokens/a.json").trace.refreshCalls = 0 := by
  refine ⟨?_, rfl, rfl, rfl⟩
  decide

/-- C8 counterexample: `get_service_for_user` given no credential (`None`) in an
environment where `build` succeeds on ambient defaults does not fail with
`AuthenticationError` — it attempts the build (one attempt) and returns the
resource handle, refuting the claim for this cited symbol. -/
theorem C8_counterexample_no_check :
    (get_service_for_user false none "gmail" "v1").result =
      .ok { api_name := "gmail", api_version := "v1", credentials := none } ∧
    (get_service_for_user false none "gmail" "v1").buildAttempts = 1 :=
  ⟨rfl, rfl⟩

/-- C8 amended: only the `get_service` variant
(`src/newsletter_ai/tools/gmail/gmail_authenticator.py`) performs the defensive
check — with an absent credential it raises `AuthenticationError` without
attempting to build. The `get_service_for_user` variant
(`src/tools/gmail/gmail_authenticator.py`) performs no credential check: it
always attempts exactly one build with whatever credentials it was given
(including none), returning the handle when the build succeeds and wrapping a
build failure as `AuthenticationError`. -/
theorem C8_amended_defensive_check (buildRaises : Bool) (creds : Option Credentials)
    (a v : String) :
    get_service buildRaises none a v =
      { result := .error .noCredentials, buildAttempts := 0 } ∧
    (get_service_for_user buildRaises creds a v).buildAttempts = 1 ∧
    (get_service_for_user buildRaises creds a v).result =
      (if buildRaises then .error .buildError
       else .ok { api_name := a, api_version := v, credentials := creds }) := by
  refine ⟨rfl, ?_, ?_⟩ <;> cases buildRaises <;> simp [get_service_for_user, build]

/-- C9: recording an already-present message id in the `processed_emails` ledger
is a no-op — the table (hence the existing row) is unchanged, no error occurs,
and the table still holds exactly one row with that id. -/
theorem C9_duplicate_id_noop (table : List EmailRow)
    (email_id sender subject date now : String)
    (h : (table.filter (fun r => r.email_id == email_id)).length = 1) :
    mark_email_processed table email_id sender subject date now = table ∧
    ((mark_email_processed table email_id sender subject date now).filter
        (fun r => r.email_id == email_id)).length = 1 := by
  have hne : table.filter (fun r => r.email_id == email_id) ≠ [] := by
    intro hnil
    rw [hnil] at h
    simp at h
  have hany : table.any (fun r => r.email_id == email_id) = true := by
    rcases List.exists_mem_of_ne_nil _ hne with ⟨x, hx⟩
    rcases List.mem_filter.mp hx with ⟨hxm, hxp⟩
    exact List.any_eq_true.mpr ⟨x, hxm, hxp⟩
  have heq : mark_email_processed table email_id sender subject date now = table := by
    simp [mark_email_processed, hany]
  refine ⟨heq, ?_⟩
  rw [heq]
  exact h

/-- C9 witness: re-recording a concrete already-processed message id. -/
theorem C9_witness :
    (([⟨"m1", "s", "b", "2024-01-01", "t0"⟩] : List EmailRow).filter
      (fun r => r.email_id == "m1")).length = 1 ∧
    mark_email_processed [⟨"m1", "s", "b", "2024-01-01", "t0"⟩] "m1" "s2" "b2" "d2" "t1" =
      [⟨"m1", "s", "b", "2024-01-01", "t0"⟩] :=
  ⟨by decide,
    (C9_duplicate_id_noop [⟨"m1", "s", "b", "2024-01-01", "t0"⟩]
      "m1" "s2" "b2" "d2" "t1" (by decide)).1⟩

/-- C10: `GmailClient.list_messages` returns the empty list — not an error and
not an absent value — when the provider response carries no `messages` field,
and in general returns exactly the `messages` field of the response, defaulting
to the empty list. -/
theorem C10_list_messages_default (resp : ListResponse) :
    (resp.messages = none → list_messages (.ok resp) = .ok []) ∧
    list_messages (.ok resp) = .ok (resp.messages.getD []) := by
  constructor
  · intro h
    simp [list_messages, h]
  · cases h : resp.messages <;> simp [list_messages, h]

/-- C10 witness: an empty-inbox response with no `messages` field. -/
theorem C10_witness :
    (ListResponse.mk none).messages = none ∧
    list_messages (.ok (ListResponse.mk none)) = .ok [] :=
  ⟨rfl, (C10_list_messages_default ⟨none⟩).1 rfl⟩

end TextBrief
